import Mathlib

/-
  Verification development for the AutomacaoBanco repository.

  Shallow embedding of the reconcile/seed/update pipeline of
  src/AutomacaoBanco.py and of the watcher decision logic of
  src/watch_run.py.  SQL tables are modelled as Lean lists of row
  structures, the SQL-Server connection as a pair of stores (committed
  state and the state visible inside an open transaction), pandas
  dataframes as lists of row records together with column-presence
  flags, and pandas text cells as an inductive type distinguishing a
  missing value (NaN/None) from a string.  Python float arithmetic in
  the missing-ratio guard is modelled with exact rationals.
-/

namespace AutomacaoBanco

/-! ## Generic helpers -/

/-- Splitting a list into consecutive blocks of 1000 elements, as done by
the loops `for i in range(0, len(ids), 1000)` in the script.  The fuel
argument makes the recursion structural; callers pass `l.length`, which
always suffices. -/
def chunksGo {α : Type} : Nat → List α → List (List α)
  | 0, _ => []
  | _, [] => []
  | fuel + 1, a :: l => ((a :: l).take 1000) :: chunksGo fuel ((a :: l).drop 1000)

/-- The 1000-element chunking used for batched SQL `IN (...)` queries. -/
def chunks1000 {α : Type} (l : List α) : List (List α) := chunksGo l.length l

/-- Python `sorted(...)` on a list of ints. -/
def sortInts (l : List Int) : List Int := List.insertionSort (fun a b => a ≤ b) l

/-- Python `sorted(set(...))` on ints: duplicates removed, values sorted.
Both produce the unique duplicate-free ascending enumeration of the set. -/
def sortedDedup (l : List Int) : List Int := sortInts l.dedup

/-- Duplicate removal keeping the first occurrence of each element, matching
pandas `Series.unique()` and `DataFrame.drop_duplicates()`.  Fuel keeps the
recursion structural; callers pass `l.length`. -/
def dedupFirstGo {α : Type} [DecidableEq α] : Nat → List α → List α
  | 0, _ => []
  | _, [] => []
  | fuel + 1, a :: l => a :: dedupFirstGo fuel (l.filter (fun x => x ≠ a))

/-- Pandas-style unique: first occurrences, input order. -/
def dedupFirst {α : Type} [DecidableEq α] (l : List α) : List α :=
  dedupFirstGo l.length l

/-- Python dict assignment `m[k] = v` on an insertion-ordered dictionary:
overwrite in place when the key exists, append otherwise. -/
def dinsert (m : List (Int × Int)) (k v : Int) : List (Int × Int) :=
  if m.any (fun p => p.1 == k) then
    m.map (fun p => if p.1 == k then (k, v) else p)
  else m ++ [(k, v)]

/-- Python dict lookup `m.get(k)`: the value at the key, if present (keys
are unique in every dictionary built here, so first match suffices). -/
def dlookup : List (Int × Int) → Int → Option Int
  | [], _ => none
  | p :: rest, k => if p.1 == k then some p.2 else dlookup rest k

/-- Python `m.keys()`. -/
def dkeys (m : List (Int × Int)) : List Int := m.map (fun p => p.1)

/-- Lexicographic order on int pairs, as used by Python `sorted` on tuples. -/
def pairLe (p q : Int × Int) : Prop := p.1 < q.1 ∨ (p.1 = q.1 ∧ p.2 ≤ q.2)

instance : DecidableRel pairLe :=
  fun p q => inferInstanceAs (Decidable (p.1 < q.1 ∨ (p.1 = q.1 ∧ p.2 ≤ q.2)))

/-! ## Text cells -/

/-- A dataframe text cell: either missing (pandas NaN / Python None) or a
string value. -/
inductive Cell where
  | na : Cell
  | s : String → Cell
deriving DecidableEq

/-- Conversion of a cell to a SQL parameter in the update loops:
`None if pd.isna(x) else str(x)`.  A missing cell becomes SQL NULL. -/
def toParam : Cell → Option String
  | .na => none
  | .s v => some v

/-- Pandas `astype(str)` on a text cell: a NaN cell renders as the string
"nan"; a string stays itself. -/
def astypeStr : Cell → String
  | .na => "nan"
  | .s v => v

/-- Character slice `.str.slice(0, n)`: the first n characters. -/
def strSlice (n : Nat) (s : String) : String := ⟨s.data.take n⟩

/-! ## Target-store model -/

/-- A row of `PMP.dbo.PUB_TIPOS_TEXTOS`. -/
structure TTRow where
  idTipo : Int
  textoPrimario : Option String
  textoSecundario : Option String
  ativo : Int
  idConteudo : Option Int
  header : Option String
deriving DecidableEq

/-- A row of `PMP.dbo.PUB_TIPOS_TEXTOS_TITULOS`. -/
structure TLRow where
  idTipo : Int
  textoTitle : Option String
  textoMetaDescription : Option String
  ativo : Int
  idConteudo : Option Int
deriving DecidableEq

/-- The two target tables of the PMP destination database. -/
structure Store where
  tt : List TTRow
  tl : List TLRow
deriving DecidableEq

/-- A row of the configurable mapping table (default
`TEMATICOS_CONTEUDO_ITEM`): identifier column and nullable content-id
column. -/
structure MapRow where
  tipo : Int
  conteudo : Option Int
deriving DecidableEq

/-- A row of `PROCESSADO_BUSCA_TIPOS`: (idCategoria, idGrupo) to idTipo. -/
structure BuscaRow where
  idCategoria : Int
  idGrupo : Int
  idTipo : Int
deriving DecidableEq

/-- A database connection: the durable committed state and the state
visible to statements of the current (possibly open) transaction. -/
structure Conn where
  committed : Store
  current : Store
deriving DecidableEq

/-- The `BEGIN TRAN;` statement: the transaction starts from the committed
state. -/
def beginTran (c : Conn) : Conn := { c with current := c.committed }

/-- The `COMMIT;` statement: the transaction results become durable. -/
def commit (c : Conn) : Conn := { c with committed := c.current }

/-- The `ROLLBACK;` statement: uncommitted work is discarded. -/
def rollback (c : Conn) : Conn := { c with current := c.committed }

/-- Existence test `SELECT 1 FROM PUB_TIPOS_TEXTOS WHERE idTipo=?`. -/
def ttHas (s : Store) (i : Int) : Bool := s.tt.any (fun r => r.idTipo == i)

/-- Existence test `SELECT 1 FROM PUB_TIPOS_TEXTOS_TITULOS WHERE idTipo=?`. -/
def tlHas (s : Store) (i : Int) : Bool := s.tl.any (fun r => r.idTipo == i)

/-- Embedding of `fetch_existing_idtipos`: the ids of the input list that
already exist in `PUB_TIPOS_TEXTOS`, queried in blocks of 1000 and
accumulated into a set (modelled as a list; the input ids are
duplicate-free at every call site). -/
def fetch_existing_idtipos (s : Store) (ids : List Int) : List Int :=
  (chunks1000 ids).foldl (fun out chunk => out ++ chunk.filter (fun i => ttHas s i)) []

/-! ## Content-mapping resolver -/

/-- Tie-break policy for the content-id resolver.  The script receives it
as the CLI string `--pick-idconteudo` restricted by argparse to the
choices "min" and "max" and selects `MIN` when `pick.lower() == "min"`,
`MAX` otherwise. -/
inductive Pick where
  | min : Pick
  | max : Pick
deriving DecidableEq

/-- The SQL aggregate selected by the policy, over the non-null candidate
list of one identifier. -/
def pickAgg : Pick → List Int → Option Int
  | .min => List.min?
  | .max => List.max?

/-- Non-null content ids associated with identifier `t` in the mapping
table (`WHERE {tipo} = t AND {conteudo} IS NOT NULL`). -/
def cands (tbl : List MapRow) (t : Int) : List Int :=
  tbl.filterMap (fun r => if r.tipo == t then r.conteudo else none)

/-- Result rows of one chunked
`SELECT tipo, MIN/MAX(conteudo) ... WHERE tipo IN chunk AND conteudo IS
NOT NULL GROUP BY tipo` query: one row per chunk identifier that has at
least one non-null candidate.  (SQL emits the groups in unspecified
order; chunk order is used here, which is immaterial because the chunk
ids are distinct.) -/
def groupRows (tbl : List MapRow) (chunk : List Int) (pick : Pick) : List (Int × Int) :=
  chunk.filterMap (fun t => (pickAgg pick (cands tbl t)).map (fun v => (t, v)))

/-- Embedding of `resolve_idconteudo`: sorted deduplicated ids, processed
in blocks of 1000, each block filling the result dictionary from the
grouped extremum query. -/
def resolve_idconteudo (tbl : List MapRow) (missing : List Int) (pick : Pick) :
    List (Int × Int) :=
  let ids := sortedDedup missing
  if ids = [] then []
  else
    (chunks1000 ids).foldl
      (fun m chunk => (groupRows tbl chunk pick).foldl (fun m2 p => dinsert m2 p.1 p.2) m)
      []

/-! ## Seeder -/

/-- One conditional insert issued by the seeding loop. -/
inductive SeedStmt where
  | insTT (idt idc : Int) : SeedStmt
  | insTL (idt idc : Int) : SeedStmt
deriving DecidableEq

/-- Effect of one conditional insert:
`IF NOT EXISTS (... WHERE idTipo=?) INSERT ... VALUES (idt, Chr, Chr, 1, idc, ...)`
with empty-string text placeholders and Ativo=1. -/
def applyStmt (st : SeedStmt) (s : Store) : Store :=
  match st with
  | .insTT i c =>
      if ttHas s i then s
      else { s with tt := s.tt ++ [⟨i, some "", some "", 1, some c, none⟩] }
  | .insTL i c =>
      if tlHas s i then s
      else { s with tl := s.tl ++ [⟨i, some "", some "", 1, some c⟩] }

/-- The statement sequence of the seeding loop: for each (idTipo,
IdConteudo) pair in order, the TT conditional insert then the TL one. -/
def seedStmts (toDo : List (Int × Int)) : List SeedStmt :=
  toDo.flatMap (fun p => [.insTT p.1 p.2, .insTL p.1 p.2])

/-- Sequential execution of the statements inside the transaction.  The
oracle `fails` injects a store-level failure at a given statement index
(the statement then raises instead of applying). -/
def runStmts (fails : Nat → Bool) : List SeedStmt → Nat → Store → Except Unit (Store × Nat)
  | [], k, s => .ok (s, k)
  | st :: rest, k, s =>
      if fails k then .error ()
      else runStmts fails rest (k + 1) (applyStmt st s)

/-- The failure oracle of a run in which every statement succeeds. -/
def noFail : Nat → Bool := fun _ => false

/-- Embedding of `seed_missing`.  Empty mapping: immediate (0, 0).
Dry-run: report only, no statement executed, result (0, 0).  Live run:
`BEGIN TRAN`, the conditional inserts over the lexicographically sorted
pairs, then `COMMIT`; on any statement failure `ROLLBACK` and the error
propagates.  The returned counters are the literal (0, 0) of the
source. -/
def seed_missing (fails : Nat → Bool) (conn : Conn) (mapa : List (Int × Int))
    (dry_run : Bool) : Except Unit (Nat × Nat) × Conn :=
  if mapa = [] then (.ok (0, 0), conn)
  else if dry_run then (.ok (0, 0), conn)
  else
    let toDo := List.insertionSort pairLe mapa
    let c1 := beginTran conn
    match runStmts fails (seedStmts toDo) 0 c1.current with
    | .ok (s, _) => (.ok (0, 0), commit { c1 with current := s })
    | .error e => (.error e, rollback c1)

/-! ## Spreadsheet model -/

/-- One spreadsheet row after `normalize_dataframe`.  Numeric-key cells are
`Option Int` (`none` = missing or not coercible to a number, mirroring
`pd.to_numeric(..., errors="coerce")` and the `int(...)` conversions);
text cells are `Cell`.  A field is meaningful only when the matching
column-presence flag of the dataframe is set. -/
structure SheetRow where
  id_tipo : Option Int
  id_cat : Option Int
  id_grupo : Option Int
  textoPrincipal : Cell
  textoSecundario : Cell
  textoTitle : Cell
  textoMeta : Cell
deriving DecidableEq

/-- A normalized dataframe: column-presence flags plus the rows. -/
structure SheetDF where
  hasIdTipo : Bool
  hasIdCat : Bool
  hasIdGrupo : Bool
  hasTitle : Bool
  hasMeta : Bool
  rows : List SheetRow
deriving DecidableEq

/-! ## Identifier resolver -/

/-- Distinct sorted numeric values of the id_cat column
(`sorted(to_numeric(df.id_cat).dropna().astype(int).unique())`). -/
def catsOf (df : SheetDF) : List Int :=
  sortedDedup (df.rows.filterMap (fun r => r.id_cat))

/-- Distinct sorted numeric values of the id_grupo column. -/
def gruposOf (df : SheetDF) : List Int :=
  sortedDedup (df.rows.filterMap (fun r => r.id_grupo))

/-- The pair dictionary built from
`SELECT DISTINCT idCategoria, idGrupo, idTipo FROM PROCESSADO_BUSCA_TIPOS
WHERE idCategoria IN cats AND idGrupo IN grupos`; later rows overwrite
earlier ones exactly as the Python dict comprehension does. -/
def buildMapa (busca : List BuscaRow) (cats grupos : List Int) :
    List ((Int × Int) × Int) :=
  (busca.filter (fun r => cats.contains r.idCategoria && grupos.contains r.idGrupo)).map
    (fun r => ((r.idCategoria, r.idGrupo), r.idTipo))

/-- Dictionary lookup with last-write-wins semantics. -/
def pairLookup (m : List ((Int × Int) × Int)) (k : Int × Int) : Option Int :=
  (m.reverse.find? (fun p => p.1 == k)).map (fun p => p.2)

/-- The per-row mapping `_map_row`: both key cells must be numeric
(otherwise the `int(...)` conversion raises and the row gets NA), then the
exact pair is looked up; an unmapped pair yields NA. -/
def mapRowFn (mapa : List ((Int × Int) × Int)) (r : SheetRow) : Option Int :=
  match r.id_cat, r.id_grupo with
  | some c, some g => pairLookup mapa (c, g)
  | _, _ => none

/-- Embedding of `ensure_id_tipo`.  Returns the dataframe (unchanged when
the id_tipo column already exists, otherwise with the mapped id_tipo
column added) together with the diagnostic listing the code logs: the
first 20 distinct unresolved (id_cat, id_grupo) pairs.  Raised
`ValueError`s become `Except.error`. -/
def ensure_id_tipo (busca : List BuscaRow) (df : SheetDF) :
    Except String (SheetDF × List (Option Int × Option Int)) :=
  if df.hasIdTipo then .ok (df, [])
  else if ¬(df.hasIdCat = true ∧ df.hasIdGrupo = true) then
    .error "Planilha precisa ter id_tipo ou (id_cat e id_grupo)."
  else
    let cats := catsOf df
    let grupos := gruposOf df
    if cats = [] ∨ grupos = [] then
      .error "Colunas id_cat e id_grupo nao tem valores validos para mapear id_tipo."
    else
      let mapa := buildMapa busca cats grupos
      let rows2 := df.rows.map (fun r => { r with id_tipo := mapRowFn mapa r })
      let faltam :=
        dedupFirst ((rows2.filter (fun r => r.id_tipo = none)).map
          (fun r => (r.id_cat, r.id_grupo)))
      .ok ({ df with hasIdTipo := true, rows := rows2 }, faltam.take 20)

/-! ## Frame builder -/

/-- A row of the frame destined for `PUB_TIPOS_TEXTOS`. -/
structure TextFrameRow where
  idTipo : Int
  textoPrimario : Cell
  textoSecundario : Cell
deriving DecidableEq

/-- A row of the frame destined for `PUB_TIPOS_TEXTOS_TITULOS`. -/
structure TitleFrameRow where
  idTipo : Int
  textoTitle : Cell
  textoMetaDescription : Cell
deriving DecidableEq

/-- The TextoTitle cell of the titles frame: when the Title column exists
it is passed through `astype(str).str.slice(0, 80)` (so a NaN cell
becomes the string "nan"); when the column is absent the frame gets a
None column. -/
def titleCell (df : SheetDF) (r : SheetRow) : Cell :=
  if df.hasTitle then .s (strSlice 80 (astypeStr r.textoTitle)) else Cell.na

/-- The TextoMetaDescription cell, sliced to 320 characters when the
column exists. -/
def metaCell (df : SheetDF) (r : SheetRow) : Cell :=
  if df.hasMeta then .s (strSlice 320 (astypeStr r.textoMeta)) else Cell.na

/-- Embedding of `build_frames`: rows with a numeric idTipo feed the texts
frame; the titles frame is built only when a Title or Meta column is
present. -/
def build_frames (df : SheetDF) : List TextFrameRow × List TitleFrameRow :=
  let df_textos := df.rows.filterMap (fun r =>
    r.id_tipo.map (fun i =>
      ({ idTipo := i, textoPrimario := r.textoPrincipal,
         textoSecundario := r.textoSecundario } : TextFrameRow)))
  let df_titulos :=
    if df.hasTitle || df.hasMeta then
      df.rows.filterMap (fun r =>
        r.id_tipo.map (fun i =>
          ({ idTipo := i, textoTitle := titleCell df r,
             textoMetaDescription := metaCell df r } : TitleFrameRow)))
    else []
  (df_textos, df_titulos)

/-! ## Updater -/

/-- Effect of one
`UPDATE PUB_TIPOS_TEXTOS SET TextoPrimario=?, TextoSecundario=?, Ativo=1
WHERE idTipo=?` statement on the table rows, together with its affected
row count. -/
def updTTRows : List TTRow → TextFrameRow → List TTRow × Nat
  | [], _ => ([], 0)
  | row :: rest, r =>
      let p := updTTRows rest r
      if row.idTipo == r.idTipo then
        ({ row with textoPrimario := toParam r.textoPrimario,
                    textoSecundario := toParam r.textoSecundario,
                    ativo := 1 } :: p.1, p.2 + 1)
      else (row :: p.1, p.2)

/-- One update statement of `update_textos` applied to the store. -/
def execUpdTT (s : Store) (r : TextFrameRow) : Store × Nat :=
  let p := updTTRows s.tt r
  ({ s with tt := p.1 }, p.2)

/-- Embedding of `update_textos`: one update per frame row, summing the
affected-row counts. -/
def update_textos (s : Store) (rows : List TextFrameRow) : Store × Nat :=
  rows.foldl (fun acc r =>
    let p := execUpdTT acc.1 r
    (p.1, acc.2 + p.2)) (s, 0)

/-- Effect of one
`UPDATE PUB_TIPOS_TEXTOS_TITULOS SET TextoTitle=?, TextoMetaDescription=?,
Ativo=1 WHERE idTipo=?` statement. -/
def updTLRows : List TLRow → TitleFrameRow → List TLRow × Nat
  | [], _ => ([], 0)
  | row :: rest, r =>
      let p := updTLRows rest r
      if row.idTipo == r.idTipo then
        ({ row with textoTitle := toParam r.textoTitle,
                    textoMetaDescription := toParam r.textoMetaDescription,
                    ativo := 1 } :: p.1, p.2 + 1)
      else (row :: p.1, p.2)

/-- One update statement of `update_titulos` applied to the store. -/
def execUpdTL (s : Store) (r : TitleFrameRow) : Store × Nat :=
  let p := updTLRows s.tl r
  ({ s with tl := p.1 }, p.2)

/-- Embedding of `update_titulos`. -/
def update_titulos (s : Store) (rows : List TitleFrameRow) : Store × Nat :=
  rows.foldl (fun acc r =>
    let p := execUpdTL acc.1 r
    (p.1, acc.2 + p.2)) (s, 0)

/-! ## Orchestrator -/

/-- The CLI arguments that influence the reconciliation logic. -/
structure Args where
  auto_seed : Bool
  dry_run : Bool
  max_seed : Int
  abort_if_missing_ratio : ℚ
  pick_idconteudo : Pick
  default_idconteudo : Option Int
deriving DecidableEq

/-- How a run of `main` ends on the SQL-Server path. -/
inductive Outcome where
  | configError : Outcome
  | abortRatio : Outcome
  | abortSeedCap : Outcome
  | dryRunStop : Outcome
  | seedError : Outcome
  | completed (updTT updTL : Nat) : Outcome
deriving DecidableEq

/-- Whether the run reached the update phase and finished it. -/
def Outcome.isCompleted : Outcome → Bool
  | .completed _ _ => true
  | _ => false

/-- The distinct numeric idTipo values of the sheet
(`to_numeric(df.id_tipo).dropna().astype(int).unique().tolist()`). -/
def idsPlan (df : SheetDF) : List Int :=
  dedupFirst (df.rows.filterMap (fun r => r.id_tipo))

/-- The missing-id list `faltam_all = sorted(set(ids_plan) - existentes)`. -/
def missingIds (store : Store) (df : SheetDF) : List Int :=
  sortInts ((idsPlan df).filter
    (fun i => ¬ (fetch_existing_idtipos store (idsPlan df)).contains i))

/-- Steps 8 and 9 of `main`: filter each frame to the identifiers known to
exist, then run the two independent update passes. -/
def applyUpdates (store : Store) (existentes : List Int)
    (df_tt : List TextFrameRow) (df_tl : List TitleFrameRow) : Outcome × Store :=
  let tt2 := df_tt.filter (fun r => existentes.contains r.idTipo)
  let tl2 := df_tl.filter (fun r => existentes.contains r.idTipo)
  let p := update_textos store tt2
  let q := update_titulos p.1 tl2
  (.completed p.2 q.2, q.1)

/-- Embedding of the SQL-Server path of `main`, from the point where the
normalized sheet and the open connection are available: identifier
resolution, existence partition, missing-ratio guard, seed path with the
max-seed cap and optional default-content fallback, dry-run stop,
post-seed re-check, frame filtering and the two update passes. -/
def runMain (args : Args) (df0 : SheetDF) (store : Store) (mapTbl : List MapRow)
    (busca : List BuscaRow) (fails : Nat → Bool) : Outcome × Store :=
  match ensure_id_tipo busca df0 with
  | .error _ => (.configError, store)
  | .ok (df, _) =>
    let frames := build_frames df
    let ids_plan := idsPlan df
    let existentes := fetch_existing_idtipos store ids_plan
    let faltam_all := missingIds store df
    if ids_plan ≠ [] ∧ args.auto_seed = false ∧
        ((faltam_all.length : ℚ) / (ids_plan.length : ℚ) > args.abort_if_missing_ratio) then
      (.abortRatio, store)
    else if args.auto_seed = true ∧ 0 < faltam_all.length then
      if (faltam_all.length : Int) > args.max_seed then (.abortSeedCap, store)
      else
        let mapa := resolve_idconteudo mapTbl faltam_all args.pick_idconteudo
        let sem_mapa := sortInts (faltam_all.filter (fun i => ¬ (dkeys mapa).contains i))
        let mapa2 :=
          match args.default_idconteudo with
          | some d => sem_mapa.foldl (fun m i => dinsert m i d) mapa
          | none => mapa
        match seed_missing fails ⟨store, store⟩ mapa2 args.dry_run with
        | (.error _, conn2) => (.seedError, conn2.committed)
        | (.ok _, conn2) =>
          if args.dry_run then (.dryRunStop, conn2.committed)
          else
            let store1 := conn2.committed
            applyUpdates store1 (fetch_existing_idtipos store1 ids_plan) frames.1 frames.2
    else
      applyUpdates store existentes frames.1 frames.2

/-! ## Watcher (watch_run.py) -/

/-- The per-file info record the watcher persists in processados.json. -/
structure FInfo where
  name : String
  createdTime : Option String
  modifiedTime : Option String
  md5Checksum : Option String
deriving DecidableEq

/-- The metadata of the most recent drive file, as returned by the listing
query.  A `none` md5Checksum models an absent field; present checksums
and timestamps are non-empty strings, so Python truthiness coincides with
`Option.isSome`. -/
structure DriveFile where
  id : String
  name : String
  createdTime : Option String
  modifiedTime : Option String
  md5Checksum : Option String
deriving DecidableEq

/-- Embedding of `should_process`: process when the file is new, or its
md5 changed; when the current listing carries no md5, fall back to
comparing modification timestamps. -/
def should_process (prev : Option FInfo) (cur : FInfo) : Bool :=
  match prev with
  | none => true
  | some p =>
      if cur.md5Checksum.isSome && p.md5Checksum.isSome
          && (cur.md5Checksum != p.md5Checksum) then true
      else if !cur.md5Checksum.isSome then cur.modifiedTime != p.modifiedTime
      else false

/-- One iteration of the watcher main loop for a listed file: build the
current info record (with the sanitized name), decide via
`should_process`, and when positive invoke the automation and record the
file.  The first component tells whether the automation script was run;
`sanitize` abstracts `sanitize_filename`, whose output never enters the
decision. -/
def watcherTick (sanitize : String → String) (processed : String → Option FInfo)
    (f : DriveFile) : Bool × (String → Option FInfo) :=
  let cur : FInfo :=
    { name := sanitize f.name, createdTime := f.createdTime,
      modifiedTime := f.modifiedTime, md5Checksum := f.md5Checksum }
  let prev := processed f.id
  if should_process prev cur then
    (true, fun k => if k = f.id then some cur else processed k)
  else (false, processed)

/-! ## Lemmas: chunking -/

theorem chunksGo_flatten {α : Type} : ∀ (fuel : Nat) (l : List α), l.length ≤ fuel →
    (chunksGo fuel l).flatten = l := by
  intro fuel
  induction fuel with
  | zero =>
    intro l hl
    have h0 : l = [] := List.length_eq_zero.mp (Nat.le_zero.mp hl)
    subst h0
    rfl
  | succ n ih =>
    intro l hl
    match l with
    | [] => rfl
    | a :: t =>
      have hd : ((a :: t).drop 1000).length ≤ n := by
        simp only [List.length_drop, List.length_cons]
        simp only [List.length_cons] at hl
        omega
      simp only [chunksGo, List.flatten_cons, ih _ hd]
      exact List.take_append_drop 1000 (a :: t)

theorem chunks1000_flatten {α : Type} (l : List α) : (chunks1000 l).flatten = l :=
  chunksGo_flatten l.length l (Nat.le_refl _)

/-! ## Lemmas: dictionary operations -/

theorem dlookup_map_overwrite : ∀ (m : List (Int × Int)) (k v t : Int), k ≠ t →
    dlookup (m.map (fun p => if p.1 = k then (k, v) else p)) t = dlookup m t := by
  intro m k v t hk
  induction m with
  | nil => rfl
  | cons p rest ih =>
    by_cases hp : p.1 = k
    · have h1 : ¬ (k = t) := hk
      simp [dlookup, hp, h1, ih]
    · simp only [List.map_cons, if_neg hp]
      by_cases hpt : p.1 = t
      · simp [dlookup, hpt]
      · simp [dlookup, hpt, ih]

theorem dlookup_append_single : ∀ (m : List (Int × Int)) (k v t : Int), k ≠ t →
    dlookup (m ++ [(k, v)]) t = dlookup m t := by
  intro m k v t hk
  induction m with
  | nil => simp [dlookup, fun h => hk h]
  | cons p rest ih =>
    by_cases hpt : p.1 = t
    · simp [dlookup, hpt]
    · simp [dlookup, hpt, ih]

theorem dlookup_dinsert_ne (m : List (Int × Int)) (k v t : Int) (hk : k ≠ t) :
    dlookup (dinsert m k v) t = dlookup m t := by
  rw [dinsert]
  by_cases h : m.any (fun p => p.1 == k) = true
  · rw [if_pos h]
    have h2 := dlookup_map_overwrite m k v t hk
    simpa using h2
  · rw [if_neg h]
    exact dlookup_append_single m k v t hk

theorem dlookup_dinsert_self : ∀ (m : List (Int × Int)) (k v : Int),
    dlookup (dinsert m k v) k = some v := by
  intro m k v
  induction m with
  | nil => simp [dinsert, dlookup]
  | cons p rest ih =>
    cases hp : (p.1 == k) with
    | true =>
      have hpe : p.1 = k := by simpa using hp
      simp [dinsert, dlookup, List.any_cons, hp, hpe]
    | false =>
      have hpe : ¬ p.1 = k := by simpa using hp
      cases hr : rest.any (fun q => q.1 == k) with
      | true =>
        have ih2 := ih
        simp [dinsert, hr] at ih2
        simp [dinsert, dlookup, List.any_cons, hp, hr, hpe]
        exact ih2
      | false =>
        have ih2 := ih
        simp [dinsert, hr] at ih2
        simp [dinsert, dlookup, List.any_cons, hp, hr, hpe]
        exact ih2

theorem dlookup_foldl_not_mem :
    ∀ (entries : List (Int × Int)) (m : List (Int × Int)) (t : Int),
      (∀ p ∈ entries, p.1 ≠ t) →
      dlookup (entries.foldl (fun m2 p => dinsert m2 p.1 p.2) m) t = dlookup m t := by
  intro entries
  induction entries with
  | nil => intro m t _; rfl
  | cons e rest ih =>
    intro m t h
    rw [List.foldl_cons, ih _ t (fun p hp => h p (List.mem_cons_of_mem e hp))]
    exact dlookup_dinsert_ne m e.1 e.2 t (h e (List.mem_cons_self e rest))

theorem dlookup_foldl_mem :
    ∀ (entries : List (Int × Int)) (m : List (Int × Int)) (t v : Int),
      (entries.map (fun p => p.1)).Nodup → (t, v) ∈ entries →
      dlookup (entries.foldl (fun m2 p => dinsert m2 p.1 p.2) m) t = some v := by
  intro entries
  induction entries with
  | nil => intro m t v _ hm; cases hm
  | cons e rest ih =>
    intro m t v hnd hm
    rw [List.map_cons, List.nodup_cons] at hnd
    rcases List.mem_cons.mp hm with he | hr
    · subst he
      rw [List.foldl_cons]
      rw [dlookup_foldl_not_mem rest _ t ?hne]
      · exact dlookup_dinsert_self m t v
      case hne =>
        intro p hp hpt
        exact hnd.1 (hpt ▸ List.mem_map_of_mem (fun q => q.1) hp)
    · exact ih _ t v hnd.2 hr

/-! ## Lemmas: grouped extremum query -/

theorem groupRows_keys (tbl : List MapRow) (pick : Pick) :
    ∀ (c : List Int),
      (groupRows tbl c pick).map (fun p => p.1)
        = c.filter (fun t => (pickAgg pick (cands tbl t)).isSome) := by
  intro c
  induction c with
  | nil => rfl
  | cons t rest ih =>
    cases h : pickAgg pick (cands tbl t) with
    | none =>
      simp [groupRows, List.filterMap_cons, h, List.filter_cons] at ih ⊢
      exact ih
    | some v =>
      simp [groupRows, List.filterMap_cons, h, List.filter_cons] at ih ⊢
      exact ih

theorem mem_groupRows (tbl : List MapRow) (pick : Pick) (c : List Int) (t v : Int) :
    (t, v) ∈ groupRows tbl c pick ↔ t ∈ c ∧ pickAgg pick (cands tbl t) = some v := by
  constructor
  · intro h
    rcases List.mem_filterMap.mp h with ⟨a, ha, hav⟩
    rcases Option.map_eq_some'.mp hav with ⟨w, hw, hpair⟩
    obtain ⟨rfl, rfl⟩ : a = t ∧ w = v := by
      constructor <;> [exact congrArg Prod.fst hpair; exact congrArg Prod.snd hpair]
    exact ⟨ha, hw⟩
  · intro hx
    exact List.mem_filterMap.mpr ⟨t, hx.1, by rw [hx.2]; rfl⟩

theorem dlookup_chunk_step (tbl : List MapRow) (pick : Pick) (c : List Int)
    (m : List (Int × Int)) (t : Int) (hnd : c.Nodup) :
    dlookup ((groupRows tbl c pick).foldl (fun m2 p => dinsert m2 p.1 p.2) m) t
      = if t ∈ c then
          (match pickAgg pick (cands tbl t) with
           | some v => some v
           | none => dlookup m t)
        else dlookup m t := by
  by_cases hc : t ∈ c
  · rw [if_pos hc]
    cases hv : pickAgg pick (cands tbl t) with
    | some v =>
      have hkeys : ((groupRows tbl c pick).map (fun p => p.1)).Nodup := by
        rw [groupRows_keys]
        exact hnd.filter _
      exact dlookup_foldl_mem _ m t v hkeys ((mem_groupRows tbl pick c t v).mpr ⟨hc, hv⟩)
    | none =>
      apply dlookup_foldl_not_mem
      intro p hp hpt
      have h2 := (mem_groupRows tbl pick c p.1 p.2).mp hp
      rw [hpt, hv] at h2
      cases h2.2
  · rw [if_neg hc]
    apply dlookup_foldl_not_mem
    intro p hp hpt
    have h2 := (mem_groupRows tbl pick c p.1 p.2).mp hp
    exact hc (hpt ▸ h2.1)

theorem dlookup_chunks_fold (tbl : List MapRow) (pick : Pick) :
    ∀ (cs : List (List Int)) (m : List (Int × Int)) (t : Int), cs.flatten.Nodup →
    dlookup (cs.foldl
        (fun m2 c => (groupRows tbl c pick).foldl (fun m3 p => dinsert m3 p.1 p.2) m2) m) t
      = if t ∈ cs.flatten then
          (match pickAgg pick (cands tbl t) with
           | some v => some v
           | none => dlookup m t)
        else dlookup m t := by
  intro cs
  induction cs with
  | nil =>
    intro m t _
    simp
  | cons c rest ih =>
    intro m t hnd
    rw [List.flatten_cons] at hnd
    have hc : c.Nodup := hnd.of_append_left
    have hrest : rest.flatten.Nodup := hnd.of_append_right
    have hdisj : ∀ x, x ∈ c → x ∉ rest.flatten := by
      intro x hx hy
      exact (List.disjoint_of_nodup_append hnd) hx hy
    rw [List.foldl_cons, ih _ t hrest]
    by_cases hct : t ∈ c
    · have hnr : t ∉ rest.flatten := hdisj t hct
      rw [if_neg hnr, dlookup_chunk_step tbl pick c m t hc, if_pos hct]
      simp [List.flatten_cons, List.mem_append, hct]
    · rw [dlookup_chunk_step tbl pick c m t hc, if_neg hct]
      by_cases hrt : t ∈ rest.flatten
      · rw [if_pos hrt]
        have hin : t ∈ (c ++ rest.flatten) := List.mem_append.mpr (Or.inr hrt)
        rw [List.flatten_cons, if_pos hin]
      · rw [if_neg hrt]
        have hout : t ∉ (c ++ rest.flatten) := by
          rw [List.mem_append]
          rintro (h | h)
          exacts [hct h, hrt h]
        rw [List.flatten_cons, if_neg hout]

theorem sortedDedup_nodup (l : List Int) : (sortedDedup l).Nodup :=
  ((List.perm_insertionSort (fun a b => a ≤ b) l.dedup).nodup_iff).mpr (List.nodup_dedup l)

theorem mem_sortedDedup (l : List Int) (t : Int) : t ∈ sortedDedup l ↔ t ∈ l := by
  rw [sortedDedup, sortInts, List.mem_insertionSort, List.mem_dedup]

/-- Core characterization of the content-mapping resolver: for every
requested identifier, the result dictionary holds exactly the selected
extremum of its non-null candidates (absent when there are none). -/
theorem resolve_lookup (tbl : List MapRow) (missing : List Int) (pick : Pick) (t : Int)
    (ht : t ∈ missing) :
    dlookup (resolve_idconteudo tbl missing pick) t = pickAgg pick (cands tbl t) := by
  have ht2 : t ∈ sortedDedup missing := (mem_sortedDedup missing t).mpr ht
  have hne : sortedDedup missing ≠ [] := List.ne_nil_of_mem ht2
  rw [resolve_idconteudo]
  simp only [hne, if_false]
  have hnd : (chunks1000 (sortedDedup missing)).flatten.Nodup := by
    rw [chunks1000_flatten]
    exact sortedDedup_nodup missing
  rw [dlookup_chunks_fold tbl pick _ [] t hnd]
  rw [chunks1000_flatten, if_pos ht2]
  cases hv : pickAgg pick (cands tbl t) with
  | some v => rfl
  | none => rfl

/-! ## Claim C7 -/

/-- C7: for every canonical identifier in the requested set, the
Content-Mapping Resolver returns the minimum of its non-null content ids
under policy min and the maximum under policy max (and nothing when only
null content ids exist); being a pure function of the mapping table and
the input set, the choice is reproducible across runs. -/
theorem resolver_tiebreak_min_max (tbl : List MapRow) (missing : List Int) (t : Int)
    (ht : t ∈ missing) :
    dlookup (resolve_idconteudo tbl missing .min) t = (cands tbl t).min?
      ∧ dlookup (resolve_idconteudo tbl missing .max) t = (cands tbl t).max? :=
  ⟨resolve_lookup tbl missing .min t ht, resolve_lookup tbl missing .max t ht⟩

/-- The mapping table of the worked example of the spec: one identifier
with non-null content ids 3, 7, 1 and one null mapping row. -/
def exampleMapTbl : List MapRow := [⟨5, some 3⟩, ⟨5, some 7⟩, ⟨5, none⟩, ⟨5, some 1⟩]

/-- Witness for C7 at the example of the spec: from content ids
{3, 7, 1}, policy min yields 1 and policy max yields 7. -/
theorem resolver_tiebreak_min_max_witness :
    (5 : Int) ∈ ([5] : List Int)
      ∧ dlookup (resolve_idconteudo exampleMapTbl [5] .min) 5 = some 1
      ∧ dlookup (resolve_idconteudo exampleMapTbl [5] .max) 5 = some 7 := by
  refine ⟨by decide, ?_, ?_⟩
  · rw [(resolver_tiebreak_min_max exampleMapTbl [5] 5 (by decide)).1]
    decide
  · rw [(resolver_tiebreak_min_max exampleMapTbl [5] 5 (by decide)).2]
    decide

/-! ## Lemmas: seeder -/

/-- Pure effect of executing a statement list with no failures. -/
def seedApply (s : Store) (stmts : List SeedStmt) : Store :=
  stmts.foldl (fun s2 st => applyStmt st s2) s

theorem runStmts_noFail : ∀ (stmts : List SeedStmt) (k : Nat) (s : Store),
    runStmts noFail stmts k s = .ok (seedApply s stmts, k + stmts.length) := by
  intro stmts
  induction stmts with
  | nil => intro k s; simp [runStmts, seedApply]
  | cons st rest ih =>
    intro k s
    rw [runStmts]
    simp only [noFail, Bool.false_eq_true, if_false]
    rw [ih]
    simp [seedApply, List.foldl_cons]
    omega

def stmtDone (st : SeedStmt) (s : Store) : Bool :=
  match st with
  | .insTT i _ => ttHas s i
  | .insTL i _ => tlHas s i

theorem applyStmt_done (st : SeedStmt) (s : Store) (h : stmtDone st s = true) :
    applyStmt st s = s := by
  cases st with
  | insTT i c => simp [applyStmt, stmtDone] at h ⊢; simp [h]
  | insTL i c => simp [applyStmt, stmtDone] at h ⊢; simp [h]

theorem ttHas_applyStmt (st : SeedStmt) (s : Store) (i : Int) (h : ttHas s i = true) :
    ttHas (applyStmt st s) i = true := by
  cases st with
  | insTT j c =>
    by_cases hj : ttHas s j = true
    · simp [applyStmt, hj, h]
    · simp only [applyStmt, hj, if_neg, Bool.false_eq_true, if_false]
      simp only [ttHas, List.any_append] at h ⊢
      simp [h]
  | insTL j c =>
    by_cases hj : tlHas s j = true
    · simp [applyStmt, hj, h]
    · simp only [applyStmt, hj, Bool.false_eq_true, if_false]
      simpa [ttHas] using h

theorem tlHas_applyStmt (st : SeedStmt) (s : Store) (i : Int) (h : tlHas s i = true) :
    tlHas (applyStmt st s) i = true := by
  cases st with
  | insTT j c =>
    by_cases hj : ttHas s j = true
    · simp [applyStmt, hj, h]
    · simp only [applyStmt, hj, Bool.false_eq_true, if_false]
      simpa [tlHas] using h
  | insTL j c =>
    by_cases hj : tlHas s j = true
    · simp [applyStmt, hj, h]
    · simp only [applyStmt, hj, Bool.false_eq_true, if_false]
      simp only [tlHas, List.any_append] at h ⊢
      simp [h]

theorem stmtDone_mono (st st2 : SeedStmt) (s : Store) (h : stmtDone st s = true) :
    stmtDone st (applyStmt st2 s) = true := by
  cases st with
  | insTT i c => exact ttHas_applyStmt st2 s i h
  | insTL i c => exact tlHas_applyStmt st2 s i h

theorem stmtDone_apply_self (st : SeedStmt) (s : Store) :
    stmtDone st (applyStmt st s) = true := by
  cases st with
  | insTT i c =>
    by_cases hj : ttHas s i = true
    · simp [applyStmt, hj, stmtDone]
    · simp only [applyStmt, hj, Bool.false_eq_true, if_false, stmtDone]
      simp [ttHas, List.any_append]
  | insTL i c =>
    by_cases hj : tlHas s i = true
    · simp [applyStmt, hj, stmtDone]
    · simp only [applyStmt, hj, Bool.false_eq_true, if_false, stmtDone]
      simp [tlHas, List.any_append]

theorem stmtDone_seedApply_of_done : ∀ (stmts : List SeedStmt) (s : Store) (st : SeedStmt),
    stmtDone st s = true → stmtDone st (seedApply s stmts) = true := by
  intro stmts
  induction stmts with
  | nil => intro s st h; simpa [seedApply] using h
  | cons st2 rest ih =>
    intro s st h
    rw [seedApply, List.foldl_cons]
    exact ih (applyStmt st2 s) st (stmtDone_mono st st2 s h)

theorem stmtDone_seedApply : ∀ (stmts : List SeedStmt) (s : Store) (st : SeedStmt),
    st ∈ stmts → stmtDone st (seedApply s stmts) = true := by
  intro stmts
  induction stmts with
  | nil => intro s st h; cases h
  | cons st2 rest ih =>
    intro s st h
    rcases List.mem_cons.mp h with he | hr
    · subst he
      rw [seedApply, List.foldl_cons]
      exact stmtDone_seedApply_of_done rest (applyStmt st s) st (stmtDone_apply_self st s)
    · exact ih (applyStmt st2 s) st hr

theorem seedApply_noop : ∀ (stmts : List SeedStmt) (s : Store),
    (∀ st ∈ stmts, stmtDone st s = true) → seedApply s stmts = s := by
  intro stmts
  induction stmts with
  | nil => intro s _; rfl
  | cons st rest ih =>
    intro s h
    rw [seedApply, List.foldl_cons, applyStmt_done st s (h st (List.mem_cons_self st rest))]
    exact ih s (fun st2 h2 => h st2 (List.mem_cons_of_mem st h2))

theorem seedApply_idem (stmts : List SeedStmt) (s : Store) :
    seedApply (seedApply s stmts) stmts = seedApply s stmts :=
  seedApply_noop stmts (seedApply s stmts) (fun st h => stmtDone_seedApply stmts s st h)
theorem tt_filter_applyStmt (st : SeedStmt) (s : Store) (i : Int) (h : ttHas s i = true) :
    (applyStmt st s).tt.filter (fun row => row.idTipo == i)
      = s.tt.filter (fun row => row.idTipo == i) := by
  cases st with
  | insTT j c =>
    by_cases hj : ttHas s j = true
    · simp [applyStmt, hj]
    · have hji : ¬ ((j : Int) = i) := by
        intro he
        subst he
        exact hj h
      simp only [applyStmt, hj, Bool.false_eq_true, if_false]
      rw [List.filter_append]
      simp [hji]
  | insTL j c =>
    by_cases hj : tlHas s j = true
    · simp [applyStmt, hj]
    · simp [applyStmt, hj]

theorem tl_filter_applyStmt (st : SeedStmt) (s : Store) (i : Int) (h : tlHas s i = true) :
    (applyStmt st s).tl.filter (fun row => row.idTipo == i)
      = s.tl.filter (fun row => row.idTipo == i) := by
  cases st with
  | insTT j c =>
    by_cases hj : ttHas s j = true
    · simp [applyStmt, hj]
    · simp [applyStmt, hj]
  | insTL j c =>
    by_cases hj : tlHas s j = true
    · simp [applyStmt, hj]
    · have hji : ¬ ((j : Int) = i) := by
        intro he
        subst he
        exact hj h
      simp only [applyStmt, hj, Bool.false_eq_true, if_false]
      rw [List.filter_append]
      simp [hji]

theorem tt_filter_seedApply : ∀ (stmts : List SeedStmt) (s : Store) (i : Int),
    ttHas s i = true →
    (seedApply s stmts).tt.filter (fun row => row.idTipo == i)
      = s.tt.filter (fun row => row.idTipo == i) := by
  intro stmts
  induction stmts with
  | nil => intro s i _; rfl
  | cons st rest ih =>
    intro s i h
    rw [seedApply, List.foldl_cons]
    have h2 := ih (applyStmt st s) i (ttHas_applyStmt st s i h)
    rw [seedApply] at h2
    rw [h2, tt_filter_applyStmt st s i h]

theorem tl_filter_seedApply : ∀ (stmts : List SeedStmt) (s : Store) (i : Int),
    tlHas s i = true →
    (seedApply s stmts).tl.filter (fun row => row.idTipo == i)
      = s.tl.filter (fun row => row.idTipo == i) := by
  intro stmts
  induction stmts with
  | nil => intro s i _; rfl
  | cons st rest ih =>
    intro s i h
    rw [seedApply, List.foldl_cons]
    have h2 := ih (applyStmt st s) i (tlHas_applyStmt st s i h)
    rw [seedApply] at h2
    rw [h2, tl_filter_applyStmt st s i h]

theorem seed_missing_noFail_eq (conn : Conn) (mapa : List (Int × Int)) (hm : mapa ≠ []) :
    seed_missing noFail conn mapa false
      = (.ok (0, 0),
         ⟨seedApply conn.committed (seedStmts (List.insertionSort pairLe mapa)),
          seedApply conn.committed (seedStmts (List.insertionSort pairLe mapa))⟩) := by
  rw [seed_missing, if_neg hm]
  simp only [Bool.false_eq_true, if_false]
  rw [show (beginTran conn).current = conn.committed from rfl]
  rw [runStmts_noFail]
  rfl

theorem seed_missing_live_eq (fails : Nat → Bool) (conn : Conn) (mapa : List (Int × Int))
    (hm : mapa ≠ []) :
    seed_missing fails conn mapa false
      = match runStmts fails (seedStmts (List.insertionSort pairLe mapa)) 0 conn.committed with
        | .ok (s, _) => (.ok (0, 0), ⟨s, s⟩)
        | .error e => (.error e, ⟨conn.committed, conn.committed⟩) := by
  rw [seed_missing, if_neg hm]
  simp only [Bool.false_eq_true, if_false]
  dsimp only [beginTran, commit, rollback]

/-- C4: live seeding is idempotent: running the seed step twice with the
same identifier-to-content mapping yields the same store state as running
it once, the second run raises no error and returns the constant (0, 0),
and for an identifier whose records already exist the seed is a no-op for
that identifier: its rows in both target tables are untouched (so no
duplicate rows arise). -/
theorem seeding_idempotent (conn : Conn) (mapa : List (Int × Int)) :
    (seed_missing noFail ((seed_missing noFail conn mapa false).2) mapa false).2
        = (seed_missing noFail conn mapa false).2
  ∧ (seed_missing noFail ((seed_missing noFail conn mapa false).2) mapa false).1 = .ok (0, 0)
  ∧ (∀ i : Int, ttHas conn.committed i = true →
      ((seed_missing noFail conn mapa false).2).committed.tt.filter (fun row => row.idTipo == i)
        = conn.committed.tt.filter (fun row => row.idTipo == i))
  ∧ (∀ i : Int, tlHas conn.committed i = true →
      ((seed_missing noFail conn mapa false).2).committed.tl.filter (fun row => row.idTipo == i)
        = conn.committed.tl.filter (fun row => row.idTipo == i)) := by
  by_cases hm : mapa = []
  · subst hm
    refine ⟨rfl, rfl, ?_, ?_⟩ <;> (intro i _; rfl)
  · rw [seed_missing_noFail_eq conn mapa hm]
    rw [seed_missing_noFail_eq _ mapa hm]
    refine ⟨?_, rfl, ?_, ?_⟩
    · simp only []
      rw [seedApply_idem]
    · intro i h
      exact tt_filter_seedApply _ conn.committed i h
    · intro i h
      exact tl_filter_seedApply _ conn.committed i h

/-- C5: live seeding is atomic: when any per-row seed statement fails
mid-batch, the seeding transaction is rolled back, the error propagates
to the caller, and the connection state equals the state before the seed
step began (no partial seeding is retained). -/
theorem seed_failure_rollback (fails : Nat → Bool) (conn : Conn) (mapa : List (Int × Int))
    (hcc : conn.current = conn.committed)
    (herr : ∃ e, (seed_missing fails conn mapa false).1 = .error e) :
    (seed_missing fails conn mapa false).2 = conn := by
  by_cases hm : mapa = []
  · exfalso
    rcases herr with ⟨e, he⟩
    rw [seed_missing, if_pos hm] at he
    cases he
  · rw [seed_missing_live_eq fails conn mapa hm] at herr ⊢
    cases hr : runStmts fails (seedStmts (List.insertionSort pairLe mapa)) 0
        conn.committed with
    | error e =>
      dsimp only
      cases conn with
      | mk cm cu =>
        simp only at hcc
        simp [hcc]
    | ok p =>
      exfalso
      rw [hr] at herr
      rcases p with ⟨s, k⟩
      rcases herr with ⟨e, he⟩
      cases he

/-- C10: for every input mapping, mode and failure behaviour, the result
value of the Seeder is either the constant pair (0, 0) or a propagated
error: the number of rows actually inserted is never reported through the
result, even when a live run inserts records. -/
theorem seeder_reports_zero (fails : Nat → Bool) (conn : Conn) (mapa : List (Int × Int))
    (dry : Bool) :
    (seed_missing fails conn mapa dry).1 = .ok (0, 0)
      ∨ (seed_missing fails conn mapa dry).1 = .error () := by
  by_cases hm : mapa = []
  · rw [seed_missing, if_pos hm]
    left
    rfl
  · by_cases hd : dry = true
    · rw [seed_missing, if_neg hm]
      simp [hd]
    · have hd2 : dry = false := by
        cases dry
        · rfl
        · exact absurd rfl hd
      subst hd2
      rw [seed_missing_live_eq fails conn mapa hm]
      cases hr : runStmts fails (seedStmts (List.insertionSort pairLe mapa)) 0
          conn.committed with
      | error e =>
        cases e
        right
        rfl
      | ok p =>
        left
        rfl

/-- A concrete connection for the seeding witnesses: one existing TT row. -/
def c4conn : Conn :=
  ⟨⟨[⟨1, some "a", some "b", 1, some 9, none⟩], []⟩,
   ⟨[⟨1, some "a", some "b", 1, some 9, none⟩], []⟩⟩

/-- The mapping seeded in the witnesses: id 1 already exists, id 2 is new. -/
def c4mapa : List (Int × Int) := [(1, 5), (2, 6)]

/-- Witness for C4 at a concrete store and mapping. -/
theorem seeding_idempotent_witness :
    ttHas c4conn.committed 1 = true
    ∧ (seed_missing noFail ((seed_missing noFail c4conn c4mapa false).2) c4mapa false).2
        = (seed_missing noFail c4conn c4mapa false).2
    ∧ ((seed_missing noFail c4conn c4mapa false).2).committed.tt.filter
          (fun row => row.idTipo == 1)
        = c4conn.committed.tt.filter (fun row => row.idTipo == 1) :=
  ⟨by decide, (seeding_idempotent c4conn c4mapa).1,
   (seeding_idempotent c4conn c4mapa).2.2.1 1 (by decide)⟩

/-- A failure oracle in which the very first statement raises. -/
def failAll : Nat → Bool := fun _ => true

/-- A concrete pristine connection for the rollback witness. -/
def c5conn : Conn := ⟨⟨[], []⟩, ⟨[], []⟩⟩

/-- Witness for C5: with a failing first statement, the seed run reports
the error and leaves the connection untouched. -/
theorem seed_failure_rollback_witness :
    c5conn.current = c5conn.committed
    ∧ (seed_missing failAll c5conn [(1, 2)] false).1 = .error ()
    ∧ (seed_missing failAll c5conn [(1, 2)] false).2 = c5conn :=
  ⟨rfl, rfl, seed_failure_rollback failAll c5conn [(1, 2)] rfl ⟨(), rfl⟩⟩

/-! ## Lemmas: updater -/

theorem updTTRows_spec : ∀ (tt : List TTRow) (r : TextFrameRow),
    (updTTRows tt r).1
        = tt.map (fun row =>
            if row.idTipo = r.idTipo then
              { row with textoPrimario := toParam r.textoPrimario,
                         textoSecundario := toParam r.textoSecundario,
                         ativo := 1 }
            else row)
      ∧ (updTTRows tt r).2 = (tt.filter (fun row => row.idTipo == r.idTipo)).length := by
  intro tt r
  induction tt with
  | nil => exact ⟨rfl, rfl⟩
  | cons row rest ih =>
    by_cases h : row.idTipo = r.idTipo
    · constructor
      · simp [updTTRows, h, List.filter_cons, ih.1]
      · simp [updTTRows, h, List.filter_cons, ih.2]
    · constructor
      · simp [updTTRows, h, List.filter_cons, ih.1]
      · simp [updTTRows, h, List.filter_cons, ih.2]

theorem updTLRows_spec : ∀ (tl : List TLRow) (r : TitleFrameRow),
    (updTLRows tl r).1
        = tl.map (fun row =>
            if row.idTipo = r.idTipo then
              { row with textoTitle := toParam r.textoTitle,
                         textoMetaDescription := toParam r.textoMetaDescription,
                         ativo := 1 }
            else row)
      ∧ (updTLRows tl r).2 = (tl.filter (fun row => row.idTipo == r.idTipo)).length := by
  intro tl r
  induction tl with
  | nil => exact ⟨rfl, rfl⟩
  | cons row rest ih =>
    by_cases h : row.idTipo = r.idTipo
    · constructor
      · simp [updTLRows, h, List.filter_cons, ih.1]
      · simp [updTLRows, h, List.filter_cons, ih.2]
    · constructor
      · simp [updTLRows, h, List.filter_cons, ih.1]
      · simp [updTLRows, h, List.filter_cons, ih.2]

/-- The loop body of `update_textos`. -/
def stepTT (acc : Store × Nat) (r : TextFrameRow) : Store × Nat :=
  let p := execUpdTT acc.1 r
  (p.1, acc.2 + p.2)

/-- The loop body of `update_titulos`. -/
def stepTL (acc : Store × Nat) (r : TitleFrameRow) : Store × Nat :=
  let p := execUpdTL acc.1 r
  (p.1, acc.2 + p.2)

theorem foldlTT_shift : ∀ (rows : List TextFrameRow) (s : Store) (k : Nat),
    rows.foldl stepTT (s, k)
      = ((rows.foldl stepTT (s, 0)).1, k + (rows.foldl stepTT (s, 0)).2) := by
  intro rows
  induction rows with
  | nil => intro s k; simp
  | cons r rest ih =>
    intro s k
    rw [List.foldl_cons, List.foldl_cons]
    rw [show stepTT (s, k) r = ((execUpdTT s r).1, k + (execUpdTT s r).2) from rfl]
    rw [show stepTT (s, 0) r = ((execUpdTT s r).1, 0 + (execUpdTT s r).2) from rfl]
    rw [ih _ (k + (execUpdTT s r).2), ih _ (0 + (execUpdTT s r).2)]
    simp
    omega

theorem foldlTL_shift : ∀ (rows : List TitleFrameRow) (s : Store) (k : Nat),
    rows.foldl stepTL (s, k)
      = ((rows.foldl stepTL (s, 0)).1, k + (rows.foldl stepTL (s, 0)).2) := by
  intro rows
  induction rows with
  | nil => intro s k; simp
  | cons r rest ih =>
    intro s k
    rw [List.foldl_cons, List.foldl_cons]
    rw [show stepTL (s, k) r = ((execUpdTL s r).1, k + (execUpdTL s r).2) from rfl]
    rw [show stepTL (s, 0) r = ((execUpdTL s r).1, 0 + (execUpdTL s r).2) from rfl]
    rw [ih _ (k + (execUpdTL s r).2), ih _ (0 + (execUpdTL s r).2)]
    simp
    omega

theorem update_textos_cons (s : Store) (r : TextFrameRow) (rest : List TextFrameRow) :
    update_textos s (r :: rest)
      = ((update_textos (execUpdTT s r).1 rest).1,
         (execUpdTT s r).2 + (update_textos (execUpdTT s r).1 rest).2) := by
  rw [show update_textos s (r :: rest) = (r :: rest).foldl stepTT (s, 0) from rfl]
  rw [List.foldl_cons]
  rw [show stepTT (s, 0) r = ((execUpdTT s r).1, 0 + (execUpdTT s r).2) from rfl]
  rw [foldlTT_shift]
  rw [show rest.foldl stepTT ((execUpdTT s r).1, 0)
        = update_textos (execUpdTT s r).1 rest from rfl]
  simp

theorem update_titulos_cons (s : Store) (r : TitleFrameRow) (rest : List TitleFrameRow) :
    update_titulos s (r :: rest)
      = ((update_titulos (execUpdTL s r).1 rest).1,
         (execUpdTL s r).2 + (update_titulos (execUpdTL s r).1 rest).2) := by
  rw [show update_titulos s (r :: rest) = (r :: rest).foldl stepTL (s, 0) from rfl]
  rw [List.foldl_cons]
  rw [show stepTL (s, 0) r = ((execUpdTL s r).1, 0 + (execUpdTL s r).2) from rfl]
  rw [foldlTL_shift]
  rw [show rest.foldl stepTL ((execUpdTL s r).1, 0)
        = update_titulos (execUpdTL s r).1 rest from rfl]
  simp

/-! ## Claim C6 -/

theorem build_frames_title_nonNull (df : SheetDF) (fr : TitleFrameRow)
    (ht : df.hasTitle = true) (hm : fr ∈ (build_frames df).2) :
    fr.textoTitle ≠ Cell.na := by
  rw [build_frames] at hm
  simp only [ht, Bool.true_or, if_true] at hm
  rcases List.mem_filterMap.mp hm with ⟨r, _, hr⟩
  rcases Option.map_eq_some'.mp hr with ⟨i, _, hfr⟩
  rw [← hfr]
  simp [titleCell, ht]

/-- C6 amended: each Updater pass issues exactly one update statement per
input row (results composing sequentially with summed counts); one
statement updates exactly the rows matching the canonical identifier,
setting the text fields through the null-preserving parameter conversion
and forcing Ativo=1, leaves the other table untouched, and reports the
matched-row count (zero matches yield count 0, not an error); at the
Updater itself a missing cell maps to SQL NULL; but for the titles table
the frame builder coerces every cell of a present Title column to a
string, so a null title input reaches the store as the non-null string
"nan" rather than as SQL NULL. -/
theorem updater_contract :
    (∀ (s : Store) (r : TextFrameRow) (rest : List TextFrameRow),
        update_textos s (r :: rest)
          = ((update_textos (execUpdTT s r).1 rest).1,
             (execUpdTT s r).2 + (update_textos (execUpdTT s r).1 rest).2))
  ∧ (∀ (s : Store) (r : TextFrameRow),
        (execUpdTT s r).1.tt
            = s.tt.map (fun row =>
                if row.idTipo = r.idTipo then
                  { row with textoPrimario := toParam r.textoPrimario,
                             textoSecundario := toParam r.textoSecundario,
                             ativo := 1 }
                else row)
        ∧ (execUpdTT s r).1.tl = s.tl
        ∧ (execUpdTT s r).2 = (s.tt.filter (fun row => row.idTipo == r.idTipo)).length)
  ∧ (∀ (s : Store) (r : TitleFrameRow) (rest : List TitleFrameRow),
        update_titulos s (r :: rest)
          = ((update_titulos (execUpdTL s r).1 rest).1,
             (execUpdTL s r).2 + (update_titulos (execUpdTL s r).1 rest).2))
  ∧ (∀ (s : Store) (r : TitleFrameRow),
        (execUpdTL s r).1.tl
            = s.tl.map (fun row =>
                if row.idTipo = r.idTipo then
                  { row with textoTitle := toParam r.textoTitle,
                             textoMetaDescription := toParam r.textoMetaDescription,
                             ativo := 1 }
                else row)
        ∧ (execUpdTL s r).1.tt = s.tt
        ∧ (execUpdTL s r).2 = (s.tl.filter (fun row => row.idTipo == r.idTipo)).length)
  ∧ (toParam Cell.na = none ∧ (∀ v, toParam (Cell.s v) = some v))
  ∧ (∀ (df : SheetDF) (fr : TitleFrameRow), df.hasTitle = true →
        fr ∈ (build_frames df).2 → fr.textoTitle ≠ Cell.na) := by
  refine ⟨update_textos_cons, ?_, update_titulos_cons, ?_, ⟨rfl, fun v => rfl⟩,
          build_frames_title_nonNull⟩
  · intro s r
    exact ⟨(updTTRows_spec s.tt r).1, rfl, (updTTRows_spec s.tt r).2⟩
  · intro s r
    exact ⟨(updTLRows_spec s.tl r).1, rfl, (updTLRows_spec s.tl r).2⟩

/-- The sheet of the C6 counterexample: a Title column is present and its
only cell is empty (NaN), with a valid identifier. -/
def c6df : SheetDF :=
  ⟨true, false, false, true, false, [⟨some 1, none, none, .na, .na, .na, .na⟩]⟩

/-- The store of the C6 counterexample: a titles row for identifier 1. -/
def c6store : Store := ⟨[], [⟨1, some "x", some "y", 0, some 2⟩]⟩

/-- C6 counterexample: running the titles pipeline (frame builder then
Updater) on a row whose Title cell is null writes the non-null string
"nan" into TextoTitle, refuting the claim that a null input text value is
always written as SQL NULL. -/
theorem updater_null_counterexample :
    (update_titulos c6store (build_frames c6df).2).1.tl
        = [⟨1, some "nan", none, 1, some 2⟩]
      ∧ (some "nan" : Option String) ≠ none := by
  constructor
  · decide
  · intro h
    cases h

/-- Witness for C6 amended at concrete inputs: a single-statement pass on
the texts table updates the matching row, null-preserving, and counts 1;
the title frame of a present-Title sheet carries no null cells. -/
theorem updater_contract_witness :
    (execUpdTT c6store ⟨1, .s "A", .na⟩).1.tl = c6store.tl
    ∧ (execUpdTT ⟨[⟨1, some "X", some "Y", 0, some 1, none⟩], []⟩ ⟨1, .s "A", .na⟩).2 = 1
    ∧ c6df.hasTitle = true
    ∧ (⟨1, .s "nan", .na⟩ : TitleFrameRow) ∈ (build_frames c6df).2
    ∧ (⟨1, .s "nan", .na⟩ : TitleFrameRow).textoTitle ≠ Cell.na := by
  refine ⟨updater_contract.2.1 c6store ⟨1, .s "A", .na⟩ |>.2.1, ?_, rfl, by decide, ?_⟩
  · rw [(updater_contract.2.1 ⟨[⟨1, some "X", some "Y", 0, some 1, none⟩], []⟩
          ⟨1, .s "A", .na⟩).2.2]
    decide
  · exact updater_contract.2.2.2.2.2 c6df ⟨1, .s "nan", .na⟩ rfl (by decide)

/-! ## Claims C8 and C9 -/

theorem ensure_id_tipo_hasId (busca : List BuscaRow) (df : SheetDF)
    (h : df.hasIdTipo = true) : ensure_id_tipo busca df = .ok (df, []) := by
  rw [ensure_id_tipo, if_pos h]

/-- A sheet row with its identifier cell blanked, used to state that the
resolver touches nothing but the id_tipo column. -/
def sheetRowErase (r : SheetRow) : SheetRow := { r with id_tipo := none }

/-- C8: when the sheet lacks the id_tipo column, the Identifier Resolver
fails with a configuration error exactly when the composite-key columns
are not both present with at least one numeric value each; on success
every row is retained (unmapped pairs receiving the absent sentinel and
all other cells untouched) and the diagnostic lists at most the first 20
distinct unresolved pairs — unresolved rows alone never fail the run. -/
theorem ensure_id_tipo_contract (busca : List BuscaRow) (df : SheetDF)
    (h : df.hasIdTipo = false) :
    ((∃ e, ensure_id_tipo busca df = .error e)
        ↔ ¬(df.hasIdCat = true ∧ df.hasIdGrupo = true
            ∧ catsOf df ≠ [] ∧ gruposOf df ≠ []))
  ∧ (∀ (df2 : SheetDF) (diag : List (Option Int × Option Int)),
      ensure_id_tipo busca df = .ok (df2, diag) →
        df2.rows.length = df.rows.length
      ∧ diag.length ≤ 20
      ∧ ∀ (i : Nat) (hi : i < df.rows.length) (hi2 : i < df2.rows.length),
          (df2.rows.get ⟨i, hi2⟩).id_tipo
              = mapRowFn (buildMapa busca (catsOf df) (gruposOf df)) (df.rows.get ⟨i, hi⟩)
          ∧ sheetRowErase (df2.rows.get ⟨i, hi2⟩)
              = sheetRowErase (df.rows.get ⟨i, hi⟩)) := by
  have hfalse : ¬ df.hasIdTipo = true := by simp [h]
  rw [ensure_id_tipo, if_neg hfalse]
  by_cases hcg : df.hasIdCat = true ∧ df.hasIdGrupo = true
  · rw [if_neg (by simpa using hcg)]
    by_cases hce : catsOf df = [] ∨ gruposOf df = []
    · rw [if_pos hce]
      constructor
      · constructor
        · intro _
          rintro ⟨_, _, hc, hg⟩
          rcases hce with hce | hce
          exacts [hc hce, hg hce]
        · intro _
          exact ⟨_, rfl⟩
      · intro df2 diag hok
        cases hok
    · rw [if_neg hce]
      push_neg at hce
      constructor
      · constructor
        · rintro ⟨e, he⟩
          cases he
        · intro hcon
          exact absurd ⟨hcg.1, hcg.2, hce.1, hce.2⟩ hcon
      · intro df2 diag hok
        rw [Except.ok.injEq, Prod.mk.injEq] at hok
        obtain ⟨hdf2, hdiag⟩ := hok
        subst hdf2
        subst hdiag
        refine ⟨by simp, ?_, ?_⟩
        · simp [List.length_take]
        · intro i hi hi2
          constructor
          · simp [List.get_eq_getElem, List.getElem_map]
          · simp only [List.get_eq_getElem, List.getElem_map, sheetRowErase]
  · rw [if_pos (by simpa using hcg)]
    constructor
    · constructor
      · intro _
        rintro ⟨hc, hg, _, _⟩
        exact hcg ⟨hc, hg⟩
      · intro _
        exact ⟨_, rfl⟩
    · intro df2 diag hok
      cases hok

/-- The mapping table of the identifier-resolver witness. -/
def c8busca : List BuscaRow := [⟨10, 20, 7⟩]

/-- The sheet of the identifier-resolver witness: no id_tipo column, two
rows of which the second has an unmapped (id_cat, id_grupo) pair. -/
def c8df : SheetDF :=
  ⟨false, true, true, false, false,
   [⟨none, some 10, some 20, .na, .na, .na, .na⟩,
    ⟨none, some 10, some 99, .na, .na, .na, .na⟩]⟩

/-- The resolved sheet of the witness. -/
def c8out : SheetDF :=
  ⟨true, true, true, false, false,
   [⟨some 7, some 10, some 20, .na, .na, .na, .na⟩,
    ⟨none, some 10, some 99, .na, .na, .na, .na⟩]⟩

/-- The diagnostic listing of the witness. -/
def c8diag : List (Option Int × Option Int) := [(some 10, some 99)]

/-- Witness for C8: the mapped sheet keeps both rows, the unmapped row is
retained with the absent sentinel, and the diagnostic lists at most 20
pairs. -/
theorem ensure_id_tipo_contract_witness :
    c8df.hasIdTipo = false
    ∧ ensure_id_tipo c8busca c8df = .ok (c8out, c8diag)
    ∧ c8out.rows.length = c8df.rows.length
    ∧ c8diag.length ≤ 20
    ∧ (c8out.rows.get ⟨1, by decide⟩).id_tipo = none := by
  refine ⟨rfl, rfl, ?_, ?_, by decide⟩
  · exact ((ensure_id_tipo_contract c8busca c8df rfl).2 c8out c8diag rfl).1
  · exact ((ensure_id_tipo_contract c8busca c8df rfl).2 c8out c8diag rfl).2.1

/-- C9: at the watcher boundary, a file whose identity is already recorded
with an equal content fingerprint (equal md5 checksum, or, when the
current listing carries no checksum, equal modification timestamp) is not
processed again: the decision is false, the automation is not invoked,
and the processed registry is unchanged. -/
theorem watcher_skips_processed (sanitize : String → String)
    (processed : String → Option FInfo) (f : DriveFile) (p : FInfo)
    (hp : processed f.id = some p)
    (hfp : (∃ m, f.md5Checksum = some m ∧ p.md5Checksum = some m)
           ∨ (f.md5Checksum = none ∧ f.modifiedTime = p.modifiedTime)) :
    (watcherTick sanitize processed f).1 = false
    ∧ (watcherTick sanitize processed f).2 = processed := by
  have hsp : should_process (processed f.id)
      ⟨sanitize f.name, f.createdTime, f.modifiedTime, f.md5Checksum⟩ = false := by
    rw [hp]
    rcases hfp with ⟨m, hm1, hm2⟩ | ⟨hm1, hm2⟩
    · simp [should_process, hm1, hm2]
    · simp [should_process, hm1, hm2]
  simp [watcherTick, hsp]

/-- The recorded info of the watcher witness. -/
def c9info : FInfo := ⟨"plan.xlsx", some "t1", some "t2", some "abc"⟩

/-- The registry of the watcher witness. -/
def c9processed : String → Option FInfo :=
  fun k => if k = "file1" then some c9info else none

/-- The re-listed drive file of the watcher witness: same id, same md5. -/
def c9file : DriveFile := ⟨"file1", "plan.xlsx", some "t1", some "t3", some "abc"⟩

/-- Witness for C9: re-presenting the recorded file with an unchanged md5
triggers no invocation and leaves the registry untouched. -/
theorem watcher_skips_processed_witness :
    c9processed c9file.id = some c9info
    ∧ (watcherTick id c9processed c9file).1 = false
    ∧ (watcherTick id c9processed c9file).2 = c9processed := by
  refine ⟨rfl, ?_, ?_⟩
  · exact (watcher_skips_processed id c9processed c9file c9info rfl
      (Or.inl ⟨"abc", rfl, rfl⟩)).1
  · exact (watcher_skips_processed id c9processed c9file c9info rfl
      (Or.inl ⟨"abc", rfl, rfl⟩)).2

/-! ## Claims C1, C2, C3 -/

theorem applyUpdates_isCompleted (s : Store) (e : List Int)
    (a : List TextFrameRow) (b : List TitleFrameRow) :
    ((applyUpdates s e a b).1).isCompleted = true := rfl

theorem seed_missing_dry (fails : Nat → Bool) (conn : Conn) (mapa : List (Int × Int)) :
    seed_missing fails conn mapa true = (.ok (0, 0), conn) := by
  rw [seed_missing]
  by_cases hm : mapa = []
  · rw [if_pos hm]
  · rw [if_neg hm]
    rfl

/-- C2: with seeding disabled and a nonempty input-id set, the run returns
at the missing-ratio guard with the store untouched exactly when the
missing ratio exceeds the configured threshold, and reaches and completes
the update phase exactly when the ratio is at most the threshold. -/
theorem missing_ratio_guard (args : Args) (df : SheetDF) (store : Store)
    (mapTbl : List MapRow) (busca : List BuscaRow) (fails : Nat → Bool)
    (hTipo : df.hasIdTipo = true) (hN : idsPlan df ≠ [])
    (hAS : args.auto_seed = false) :
    (((runMain args df store mapTbl busca fails).1 = .abortRatio
        ∧ (runMain args df store mapTbl busca fails).2 = store)
      ↔ ((missingIds store df).length : ℚ) / ((idsPlan df).length : ℚ)
          > args.abort_if_missing_ratio)
  ∧ ((runMain args df store mapTbl busca fails).1.isCompleted = true
      ↔ ((missingIds store df).length : ℚ) / ((idsPlan df).length : ℚ)
          ≤ args.abort_if_missing_ratio) := by
  have he := ensure_id_tipo_hasId busca df hTipo
  unfold runMain
  rw [he]
  dsimp only
  by_cases hg : ((missingIds store df).length : ℚ) / ((idsPlan df).length : ℚ)
      > args.abort_if_missing_ratio
  · rw [if_pos ⟨hN, hAS, hg⟩]
    constructor
    · exact iff_of_true ⟨rfl, rfl⟩ hg
    · refine iff_of_false ?_ (not_le.mpr hg)
      simp [Outcome.isCompleted]
  · rw [if_neg (fun hc => hg hc.2.2)]
    rw [if_neg ?hx]
    case hx =>
      rintro ⟨h1, _⟩
      rw [hAS] at h1
      cases h1
    constructor
    · refine iff_of_false ?_ hg
      rintro ⟨h1, _⟩
      have h2 := applyUpdates_isCompleted store
        (fetch_existing_idtipos store (idsPlan df)) (build_frames df).1 (build_frames df).2
      rw [h1] at h2
      simp [Outcome.isCompleted] at h2
    · exact iff_of_true (applyUpdates_isCompleted _ _ _ _) (not_lt.mp hg)

/-- C3: with seeding enabled and at least one missing identifier, the run
returns at the max-seed cap guard exactly when the number of missing
identifiers exceeds the cap, in which case seeding and all downstream
updates are skipped and the store is untouched. -/
theorem seed_cap_guard (args : Args) (df : SheetDF) (store : Store)
    (mapTbl : List MapRow) (busca : List BuscaRow) (fails : Nat → Bool)
    (hTipo : df.hasIdTipo = true) (hAS : args.auto_seed = true)
    (hM : 0 < (missingIds store df).length) :
    ((runMain args df store mapTbl busca fails).1 = .abortSeedCap
      ↔ ((missingIds store df).length : Int) > args.max_seed)
  ∧ (((missingIds store df).length : Int) > args.max_seed →
      (runMain args df store mapTbl busca fails).2 = store) := by
  have he := ensure_id_tipo_hasId busca df hTipo
  unfold runMain
  rw [he]
  dsimp only
  rw [if_neg ?h1]
  case h1 =>
    rintro ⟨_, h2, _⟩
    rw [hAS] at h2
    cases h2
  rw [if_pos ⟨hAS, hM⟩]
  by_cases hc : ((missingIds store df).length : Int) > args.max_seed
  · rw [if_pos hc]
    exact ⟨iff_of_true rfl hc, fun _ => rfl⟩
  · rw [if_neg hc]
    refine ⟨iff_of_false ?_ hc, fun h => absurd h hc⟩
    intro hcon
    split at hcon
    · cases hcon
    · split at hcon
      · cases hcon
      · simp [applyUpdates] at hcon

/-- C1 amended: a dry-run invocation never mutates the store along the
seed path: when seeding is enabled and at least one identifier is
missing, the run either stops at the cap guard or performs the dry seed
(which writes nothing) and returns before the update phase, leaving the
store exactly as it was.  (As the counterexample shows, dry-run does not
suppress the update phase when seeding is disabled or nothing is
missing.) -/
theorem dry_run_seed_path_no_mutation (args : Args) (df0 : SheetDF) (store : Store)
    (mapTbl : List MapRow) (busca : List BuscaRow) (fails : Nat → Bool)
    (hDry : args.dry_run = true) (hAS : args.auto_seed = true)
    (df1 : SheetDF) (diag : List (Option Int × Option Int))
    (hE : ensure_id_tipo busca df0 = .ok (df1, diag))
    (hM : missingIds store df1 ≠ []) :
    (runMain args df0 store mapTbl busca fails).2 = store := by
  unfold runMain
  rw [hE]
  dsimp only
  rw [if_neg ?h1]
  case h1 =>
    rintro ⟨_, h2, _⟩
    rw [hAS] at h2
    cases h2
  rw [if_pos ⟨hAS, List.length_pos.mpr hM⟩]
  by_cases hc : ((missingIds store df1).length : Int) > args.max_seed
  · rw [if_pos hc]
  · rw [if_neg hc]
    rw [hDry, seed_missing_dry]
    rfl

/-- Arguments of the C1 counterexample: dry-run set, seeding disabled. -/
def c1Args : Args := ⟨false, true, 50, 35/100, .min, none⟩

/-- Sheet of the C1 counterexample: one row whose identifier exists. -/
def c1DF : SheetDF :=
  ⟨true, false, false, false, false, [⟨some 1, none, none, .s "A", .s "B", .na, .na⟩]⟩

/-- Store of the C1 counterexample. -/
def c1Store : Store := ⟨[⟨1, some "X", some "Y", 0, some 1, none⟩], []⟩

/-- C1 counterexample: an invocation with the dry-run flag set but seeding
disabled (so no identifier is missing from the seed path) still reaches
the update phase and mutates the store — dry-run does not protect the
whole run, only the seed path. -/
theorem dry_run_claim_counterexample :
    (runMain c1Args c1DF c1Store [] [] noFail).2 ≠ c1Store := by
  have he : ensure_id_tipo [] c1DF = .ok (c1DF, []) := rfl
  have hm : missingIds c1Store c1DF = [] := rfl
  have hid : idsPlan c1DF = [1] := rfl
  have hmain : runMain c1Args c1DF c1Store [] [] noFail
      = applyUpdates c1Store (fetch_existing_idtipos c1Store (idsPlan c1DF))
          (build_frames c1DF).1 (build_frames c1DF).2 := by
    unfold runMain
    rw [he]
    dsimp only
    rw [hm, hid]
    rw [if_neg, if_neg]
    · intro h
      exact absurd h.1 (by norm_num [c1Args])
    · intro h
      exact absurd h.2.2 (by norm_num [c1Args])
  rw [hmain]
  decide

/-- Arguments of the C1-amended witness: seeding enabled, dry-run set. -/
def c1wArgs : Args := ⟨true, true, 50, 35/100, .min, some 1⟩

/-- Sheet of the C1-amended witness: one row with a missing identifier. -/
def c1wDF : SheetDF :=
  ⟨true, false, false, false, false, [⟨some 1, none, none, .s "A", .s "B", .na, .na⟩]⟩

/-- The empty store of the C1-amended witness. -/
def c1wStore : Store := ⟨[], []⟩

/-- Witness for C1 amended: a dry-run seed-path invocation with one
missing identifier leaves the store untouched. -/
theorem dry_run_seed_path_no_mutation_witness :
    c1wArgs.dry_run = true
    ∧ c1wArgs.auto_seed = true
    ∧ ensure_id_tipo [] c1wDF = .ok (c1wDF, [])
    ∧ missingIds c1wStore c1wDF ≠ []
    ∧ (runMain c1wArgs c1wDF c1wStore [] [] noFail).2 = c1wStore :=
  ⟨rfl, rfl, rfl, by decide,
   dry_run_seed_path_no_mutation c1wArgs c1wDF c1wStore [] [] noFail rfl rfl
     c1wDF [] rfl (by decide)⟩

/-- Arguments of the C2 witness: seeding disabled, threshold 0.35. -/
def c2Args : Args := ⟨false, false, 50, 35/100, .min, none⟩

/-- Sheet of the C2 witness: two rows, identifiers 1 and 2. -/
def c2DF : SheetDF :=
  ⟨true, false, false, false, false,
   [⟨some 1, none, none, .s "A", .s "B", .na, .na⟩,
    ⟨some 2, none, none, .s "C", .s "D", .na, .na⟩]⟩

/-- The empty store of the C2 witness: both identifiers are missing. -/
def c2Store : Store := ⟨[], []⟩

/-- Witness for C2 at a concrete run with missing ratio 1. -/
theorem missing_ratio_guard_witness :
    c2DF.hasIdTipo = true
    ∧ idsPlan c2DF ≠ []
    ∧ c2Args.auto_seed = false
    ∧ ((((runMain c2Args c2DF c2Store [] [] noFail).1 = .abortRatio
          ∧ (runMain c2Args c2DF c2Store [] [] noFail).2 = c2Store)
        ↔ ((missingIds c2Store c2DF).length : ℚ) / ((idsPlan c2DF).length : ℚ)
            > c2Args.abort_if_missing_ratio)
      ∧ ((runMain c2Args c2DF c2Store [] [] noFail).1.isCompleted = true
        ↔ ((missingIds c2Store c2DF).length : ℚ) / ((idsPlan c2DF).length : ℚ)
            ≤ c2Args.abort_if_missing_ratio)) :=
  ⟨rfl, by decide, rfl,
   missing_ratio_guard c2Args c2DF c2Store [] [] noFail rfl (by decide) rfl⟩

/-- Arguments of the C3 witness: seeding enabled, cap 0. -/
def c3Args : Args := ⟨true, false, 0, 35/100, .min, none⟩

/-- Sheet of the C3 witness: one row, identifier 1, missing from the
empty store. -/
def c3DF : SheetDF :=
  ⟨true, false, false, false, false, [⟨some 1, none, none, .s "A", .s "B", .na, .na⟩]⟩

/-- The empty store of the C3 witness. -/
def c3Store : Store := ⟨[], []⟩

/-- Witness for C3 at a concrete run with one missing identifier and a
cap of zero. -/
theorem seed_cap_guard_witness :
    c3DF.hasIdTipo = true
    ∧ c3Args.auto_seed = true
    ∧ 0 < (missingIds c3Store c3DF).length
    ∧ (((runMain c3Args c3DF c3Store [] [] noFail).1 = .abortSeedCap
        ↔ ((missingIds c3Store c3DF).length : Int) > c3Args.max_seed)
      ∧ (((missingIds c3Store c3DF).length : Int) > c3Args.max_seed →
          (runMain c3Args c3DF c3Store [] [] noFail).2 = c3Store)) :=
  ⟨rfl, rfl, by decide,
   seed_cap_guard c3Args c3DF c3Store [] [] noFail rfl rfl (by decide)⟩

end AutomacaoBanco
